import Mathlib

/-!
Verification of the LayerSeven Threat Intelligence Engine
(HomeSecurityPlatform attack-map visualization).

The engine logic is embedded shallowly.  The module-level mutable
variables of the canonical merged engine draft (src/unnamed/part_000,
first draft) become fields of an explicit `EngineState`;
`drawAttackBeam` becomes a pure state-transition function that also
returns the list of spawned effects and scheduled delayed tasks; the
wall clock (`Date.now()`) becomes an explicit `now : Nat` argument in
milliseconds.  Tick-driven effect animations are embedded as step
functions on their own animation state, `none` marking the tick at
which the animation removes its layers and stops requesting frames.
The superseded engine draft in src/static/attackMap.js is embedded
separately (`amDrawAttackBeam`) for the claims that refer to it.
JavaScript floating-point arithmetic on opacities and progress values
is modelled with exact rationals.
-/

/-- A geographic coordinate pair.  The source keys its counter maps by
`location.toString()`; for a pair of numbers that stringification is
injective, so key equality is exact value equality of the pair. -/
structure GeoPoint where
  lat : Rat
  lng : Rat
  deriving DecidableEq

/-- Pointwise update of a per-location counter map, modelling
`obj[key] = v` on a plain-object map keyed by `location.toString()`. -/
def updFn (m : GeoPoint → Nat) (k : GeoPoint) (v : Nat) : GeoPoint → Nat :=
  fun x => if x = k then v else m x

/-- The `severityColors` table, part_000 lines 9 to 14. -/
def severityColors (severity : String) : Option String :=
  if severity = "critical" then some ("#ff0033")
  else if severity = "high" then some ("#ff6600")
  else if severity = "medium" then some ("#00ffff")
  else if severity = "low" then some ("#00ccff")
  else none

/-- The escalation level as a pure function of defense pressure:
`updateEscalationLevel` (part_000 lines 90 to 97) and the duplicated
inline recomputation (lines 395 to 397) both compute exactly this. -/
def levelOfPressure (pressure : Nat) : Nat :=
  if 12 < pressure then 3
  else if 6 < pressure then 2
  else 1

/-- One transient visual or audio effect spawned while processing one
event, or one task handed to the delayed-task scheduler. -/
inductive Effect where
  | domeCreated (anchor : GeoPoint)
  | originPulse (loc : GeoPoint) (intensity : Nat)
  | countryAura (loc : GeoPoint)
  | heatZoneGlow (loc : GeoPoint) (intensity : Nat)
  | clusterWarning (loc : GeoPoint)
  | beamLine (src : GeoPoint) (dst : GeoPoint) (color : String)
  | criticalSoundFx
  | orbitalPulse (loc : GeoPoint)
  | globalPulse
  | impactFlash (loc : GeoPoint) (color : String)
  | shieldImpact (loc : GeoPoint)
  | satelliteLock (loc : GeoPoint)
  | interceptTask (delayMs : Nat)
  | packetStart (src : GeoPoint) (dst : GeoPoint) (color : String)
  | trajectory (src : GeoPoint) (dst : GeoPoint)
  | shieldRipple (loc : GeoPoint) (severity : String)
  | interceptBeam (src : GeoPoint) (dst : GeoPoint) (severity : String)
  deriving DecidableEq

/-- The module-level mutable state of the canonical engine draft
(part_000 lines 17 to 24 plus the window-scoped flags and timestamps
it reads and writes). -/
structure EngineState where
  originIntensity : GeoPoint → Nat
  heatZones : GeoPoint → Nat
  attackCount : Nat
  defensePressure : Nat
  recentTargets : List GeoPoint
  lastDrawTime : Nat
  escalationLevel : Nat
  shieldDomeReady : Bool
  shieldDomeLayer : Option GeoPoint
  lastGlobalPulse : Option Nat
  lastSoundTime : Option Nat
  soundEnabled : Bool

/-- The state at script load: all counters zero, empty maps, no dome,
no throttle timestamps (`lastDrawTime = 0` mirrors the literal
initializer at part_000 line 23). -/
def initState : EngineState where
  originIntensity := fun _ => 0
  heatZones := fun _ => 0
  attackCount := 0
  defensePressure := 0
  recentTargets := []
  lastDrawTime := 0
  escalationLevel := 1
  shieldDomeReady := false
  shieldDomeLayer := none
  lastGlobalPulse := none
  lastSoundTime := none
  soundEnabled := false

/-- `createOriginPulse` counter logic, part_000 lines 103 to 121:
increment the per-origin counter and render with intensity
`min(counter, 8)`.  Returns the updated map and the rendered
intensity. -/
def createOriginPulse (m : GeoPoint → Nat) (location : GeoPoint) :
    (GeoPoint → Nat) × Nat :=
  (updFn m location (m location + 1), min (m location + 1) 8)

/-- `updateHeatZone` counter logic, part_000 lines 144 to 160:
increment the per-origin heat counter and render with intensity
`min(counter, 6)`. -/
def updateHeatZone (m : GeoPoint → Nat) (location : GeoPoint) :
    (GeoPoint → Nat) × Nat :=
  (updFn m location (m location + 1), min (m location + 1) 6)

/-- `detectThreatCluster`, part_000 lines 410 to 427: spawn a
cluster-warning circle when the (already incremented) heat counter for
the key has reached 4. -/
def detectThreatCluster (heat : GeoPoint → Nat) (location : GeoPoint) :
    List Effect :=
  if 4 ≤ heat location then [Effect.clusterWarning location] else []

/-- The recent-targets ring buffer push, part_000 lines 431 to 433:
`recentTargets.push(toCoords); if (recentTargets.length > 5)
recentTargets.shift();`. -/
def pushRecentTarget (l : List GeoPoint) (p : GeoPoint) : List GeoPoint :=
  let l2 := l ++ [p]
  if 5 < l2.length then l2.tail else l2

/-- The `!lastX || now - lastX > gap` throttle pattern used for the
critical sound (part_000 line 445) and the global pulse (line 465). -/
def throttleOpen (last : Option Nat) (now gap : Nat) : Bool :=
  match last with
  | none => true
  | some t => gap < now - t

/-- `defenseResponseDelay`, part_000 lines 482 to 491: the response
delay chosen by the severity of the triggering event. -/
def defenseResponseDelay (severity : String) : Nat :=
  if severity = "critical" then 80
  else if severity = "high" then 160
  else if severity = "medium" then 260
  else 340

/-- `multiIntercept`, part_000 lines 496 to 507: skip entirely when no
shield dome layer exists; otherwise schedule one intercept beam from
the dome center to each recent target, staggered by `i * 120` ms. -/
def multiIntercept (dome : Option GeoPoint) (targets : List GeoPoint)
    (severity : String) : List (Nat × Effect) :=
  match dome with
  | none => []
  | some center =>
      targets.enum.map (fun p => (p.1 * 120, Effect.interceptBeam center p.2 severity))

/-- The `severity === "critical"` block of `drawAttackBeam`, part_000
lines 441 to 477.  It reads the sound flag, the two throttle
timestamps and the escalation level, writes the two timestamps, and
spawns the critical response effects ending with the scheduled
interception task.  Returns (new lastSoundTime, new lastGlobalPulse,
spawned effects). -/
def criticalBlock (severity : String) (soundEnabled : Bool)
    (lastSoundTime lastGlobalPulse : Option Nat) (escalationLevel : Nat)
    (now : Nat) (fromCoords toCoords : GeoPoint) :
    Option Nat × Option Nat × List Effect :=
  if severity = "critical" then
    let soundFire := soundEnabled && throttleOpen lastSoundTime now 800
    let lastSound2 := if soundFire then some now else lastSoundTime
    let soundEffs := if soundFire then [Effect.criticalSoundFx] else []
    let escEffs :=
      (if 2 ≤ escalationLevel then [Effect.orbitalPulse toCoords] else [])
        ++ (if escalationLevel = 3 then [Effect.globalPulse] else [])
    let pulseFire := throttleOpen lastGlobalPulse now 1500
    let lastPulse2 := if pulseFire then some now else lastGlobalPulse
    let pulseEffs := if pulseFire then [Effect.globalPulse] else []
    (lastSound2, lastPulse2,
      soundEffs ++ escEffs
        ++ [Effect.impactFlash fromCoords ("#ff0033")]
        ++ pulseEffs
        ++ [Effect.shieldImpact toCoords, Effect.orbitalPulse toCoords,
            Effect.satelliteLock toCoords]
        ++ [Effect.interceptTask (defenseResponseDelay severity)])
  else (lastSoundTime, lastGlobalPulse, [])

/-- The body of `drawAttackBeam` after the throttle gate has accepted
the event, part_000 lines 370 to 512: dome creation on the very first
accepted event, counter and escalation updates, origin / heat / cluster
effects, the recent-target push, the beam, the critical block and the
packet / trajectory / ripple tail. -/
def drawAttackBeamAccepted (s : EngineState) (now : Nat)
    (fromCoords toCoords : GeoPoint) (severity : String) :
    EngineState × List Effect :=
  let domeEffs := if s.shieldDomeReady then [] else [Effect.domeCreated toCoords]
  let dome := if s.shieldDomeReady then s.shieldDomeLayer else some toCoords
  let pressure := s.defensePressure + 1
  let level := levelOfPressure pressure
  let op := createOriginPulse s.originIntensity fromCoords
  let hz := updateHeatZone s.heatZones fromCoords
  let clusterEffs := detectThreatCluster hz.1 fromCoords
  let color := (severityColors severity).getD ("#00ffff")
  let cb := criticalBlock severity s.soundEnabled s.lastSoundTime
    s.lastGlobalPulse level now fromCoords toCoords
  ({ originIntensity := op.1
     heatZones := hz.1
     attackCount := s.attackCount + 1
     defensePressure := pressure
     recentTargets := pushRecentTarget s.recentTargets toCoords
     lastDrawTime := now
     escalationLevel := level
     shieldDomeReady := true
     shieldDomeLayer := dome
     lastGlobalPulse := cb.2.1
     lastSoundTime := cb.1
     soundEnabled := s.soundEnabled },
   domeEffs
     ++ [Effect.originPulse fromCoords op.2,
         Effect.countryAura fromCoords,
         Effect.heatZoneGlow fromCoords hz.2]
     ++ clusterEffs
     ++ [Effect.beamLine fromCoords toCoords color]
     ++ cb.2.2
     ++ [Effect.packetStart fromCoords toCoords color,
         Effect.trajectory fromCoords toCoords,
         Effect.shieldRipple toCoords severity])

/-- `drawAttackBeam`, part_000 lines 362 to 512: the performance
throttle (lines 367 to 369) rejects, as a complete no-op, any call
less than 60 ms after the last accepted one; otherwise the accepted
body runs with `lastDrawTime` set to `now`. -/
def drawAttackBeam (s : EngineState) (now : Nat)
    (fromCoords toCoords : GeoPoint) (severity : String) :
    EngineState × List Effect :=
  if now - s.lastDrawTime < 60 then (s, [])
  else drawAttackBeamAccepted s now fromCoords toCoords severity

/-- The throttle gate's acceptance condition for a call at `now`. -/
def accepts (s : EngineState) (now : Nat) : Prop :=
  ¬ now - s.lastDrawTime < 60

instance (s : EngineState) (now : Nat) : Decidable (accepts s now) := by
  unfold accepts
  infer_instance

/-- One inbound `handleAttackEvent` call: its wall-clock time, origin,
destination and severity string. -/
structure TimedEvent where
  now : Nat
  origin : GeoPoint
  dest : GeoPoint
  severity : String
  deriving DecidableEq

/-- Run the engine over a sequence of calls, collecting each call's
spawned effect list (empty for a throttled call). -/
def runEngine : EngineState → List TimedEvent → EngineState × List (List Effect)
  | s, [] => (s, [])
  | s, e :: rest =>
      let r := drawAttackBeam s e.now e.origin e.dest e.severity
      let rr := runEngine r.1 rest
      (rr.1, r.2 :: rr.2)

/-- How many calls of a run are accepted with the given origin key:
the specification-level count the heat counter should track. -/
def countAcceptedFrom : EngineState → List TimedEvent → GeoPoint → Nat
  | _, [], _ => 0
  | s, e :: rest, k =>
      let r := drawAttackBeam s e.now e.origin e.dest e.severity
      (if accepts s e.now ∧ e.origin = k then 1 else 0)
        + countAcceptedFrom r.1 rest k

/-- Recognizer for the dome-creation effect. -/
def isDomeCreated : Effect → Bool
  | Effect.domeCreated _ => true
  | _ => false

/-- Total number of dome-creation effects across a run's outputs. -/
def domeCreatedTotal (outs : List (List Effect)) : Nat :=
  (outs.map (fun l => l.countP isDomeCreated)).sum

/-- One effect or scheduled task of the superseded attackMap.js engine
draft.  Purely cosmetic layers (the 14 gradient segments) are kept as
single markers since they carry no state. -/
inductive AMEffect where
  | domeCreated (anchor : GeoPoint)
  | intensifyDome (severity : String)
  | originPulse (loc : GeoPoint) (intensity : Nat)
  | countryAura (loc : GeoPoint)
  | criticalSoundFx
  | glowLine (src : GeoPoint) (dst : GeoPoint)
  | gradientSegments (src : GeoPoint) (dst : GeoPoint)
  | pulseBeamStart (src : GeoPoint) (dst : GeoPoint)
  | impactFlash (loc : GeoPoint) (color : String)
  | scheduledOriginPulse (delayMs : Nat) (loc : GeoPoint)
  | packetStart (src : GeoPoint) (dst : GeoPoint)
  | shieldImpact (loc : GeoPoint)
  | beamTrailStart (src : GeoPoint) (dst : GeoPoint)
  deriving DecidableEq

/-- The module-level mutable state of src/static/attackMap.js. -/
structure AMState where
  originIntensity : GeoPoint → Nat
  attackCount : Nat
  shieldDomeLayer : Option GeoPoint
  shieldDomeReady : Bool
  lastSoundTime : Option Nat
  soundEnabled : Bool

/-- attackMap.js state at script load. -/
def amInitState : AMState where
  originIntensity := fun _ => 0
  attackCount := 0
  shieldDomeLayer := none
  shieldDomeReady := false
  lastSoundTime := none
  soundEnabled := false

/-- `createOriginPulse` of attackMap.js lines 69 to 89: increment the
per-origin counter, render with intensity `min(counter, 8)`. -/
def amCreateOriginPulse (m : GeoPoint → Nat) (location : GeoPoint) :
    (GeoPoint → Nat) × Nat :=
  (updFn m location (m location + 1), min (m location + 1) 8)

/-- `createShieldDome` of attackMap.js lines 247 to 258: create the
singleton dome layer only if none exists yet. -/
def createShieldDome (layer : Option GeoPoint) (location : GeoPoint) :
    Option GeoPoint :=
  match layer with
  | some c => some c
  | none => some location

/-- `drawAttackBeam` of attackMap.js lines 338 to 419: no throttle
gate; ensure the dome under the `window.shieldDomeInitialized` flag;
count, intensify, origin pulse, aura, rate-limited critical sound,
glow and gradient beam; for a critical event start the perpetual beam
pulse, flash the origin and schedule two extra origin pulses at 0 and
150 ms; then packet, critical shield impact and the beam trail. -/
def amDrawAttackBeam (s : AMState) (now : Nat)
    (fromCoords toCoords : GeoPoint) (severity : String) :
    AMState × List AMEffect :=
  let dome := if s.shieldDomeReady then s.shieldDomeLayer
    else createShieldDome s.shieldDomeLayer toCoords
  let domeEffs :=
    if s.shieldDomeReady then []
    else match s.shieldDomeLayer with
      | some _ => []
      | none => [AMEffect.domeCreated toCoords]
  let intensifyEffs := if dome.isSome then [AMEffect.intensifyDome severity] else []
  let op := amCreateOriginPulse s.originIntensity fromCoords
  let soundFire := severity = "critical" && s.soundEnabled
    && 800 < now - (s.lastSoundTime.getD 0)
  let lastSound2 :=
    if severity = "critical" && s.soundEnabled then
      (if soundFire then some now else some (s.lastSoundTime.getD 0))
    else s.lastSoundTime
  let soundEffs := if soundFire then [AMEffect.criticalSoundFx] else []
  let critEffs :=
    if severity = "critical" then
      [AMEffect.pulseBeamStart fromCoords toCoords,
       AMEffect.impactFlash fromCoords ("#ff0033"),
       AMEffect.scheduledOriginPulse 0 fromCoords,
       AMEffect.scheduledOriginPulse 150 fromCoords]
    else []
  let shieldEffs := if severity = "critical" then [AMEffect.shieldImpact toCoords] else []
  ({ originIntensity := op.1
     attackCount := s.attackCount + 1
     shieldDomeLayer := dome
     shieldDomeReady := true
     lastSoundTime := lastSound2
     soundEnabled := s.soundEnabled },
   domeEffs ++ intensifyEffs
     ++ [AMEffect.originPulse fromCoords op.2, AMEffect.countryAura fromCoords]
     ++ soundEffs
     ++ [AMEffect.glowLine fromCoords toCoords,
         AMEffect.gradientSegments fromCoords toCoords]
     ++ critEffs
     ++ [AMEffect.packetStart fromCoords toCoords]
     ++ shieldEffs
     ++ [AMEffect.beamTrailStart fromCoords toCoords])

/-- Fire the delayed origin-pulse tasks an attackMap.js call scheduled
(`setTimeout(() => createOriginPulse(map, fromCoords), i * 150)`):
each one increments the origin counter again when it runs. -/
def amFireScheduledPulses (s : AMState) (effs : List AMEffect) : AMState :=
  effs.foldl
    (fun st eff =>
      match eff with
      | AMEffect.scheduledOriginPulse _ loc =>
          { st with originIntensity := (amCreateOriginPulse st.originIntensity loc).1 }
      | _ => st)
    s

/-- Recognizer for a scheduled delayed origin pulse. -/
def isScheduledPulse : AMEffect → Bool
  | AMEffect.scheduledOriginPulse _ _ => true
  | _ => false

/-- Animation state of an expanding, fading ring: current radius and
current opacity. -/
structure FadeState where
  radius : Rat
  opacity : Rat
  deriving DecidableEq

/-- One `requestAnimationFrame` step of the expand-and-fade loop shared
by the flash, shield and pulse rings: grow the radius by `dr`, drop the
opacity by 0.05, keep ticking while the opacity is still positive and
remove the layer (`none`) otherwise. -/
def fadeTick (dr : Rat) (st : FadeState) : Option FadeState :=
  let st2 : FadeState := { radius := st.radius + dr, opacity := st.opacity - 0.05 }
  if 0 < st2.opacity then some st2 else none

/-- `createImpactFlash` animation, part_000 lines 166 to 191: radius
step 16000, start opacity 0.7. -/
def impactFlashTick : FadeState → Option FadeState := fadeTick 16000

/-- Impact flash initial animation state. -/
def impactFlashInit : FadeState := { radius := 20000, opacity := 0.7 }

/-- `createShieldImpact` animation, part_000 lines 197 to 223: radius
step 18000, start opacity 0.9. -/
def shieldImpactTick : FadeState → Option FadeState := fadeTick 18000

/-- Shield impact initial animation state. -/
def shieldImpactInit : FadeState := { radius := 15000, opacity := 0.9 }

/-- The severity-dependent radius step of `createShieldRipple`,
part_000 line 243. -/
def rippleStep (severity : String) : Rat :=
  if severity = "critical" then 26000 else 18000

/-- `createShieldRipple` animation, part_000 lines 229 to 254. -/
def shieldRippleTick (severity : String) : FadeState → Option FadeState :=
  fadeTick (rippleStep severity)

/-- Shield ripple initial animation state: radius 20000, opacity 0.6. -/
def shieldRippleInit : FadeState := { radius := 20000, opacity := 0.6 }

/-- `orbitalPulse` animation, part_000 lines 320 to 340: radius step
20000, start opacity 0.6. -/
def orbitalPulseTick : FadeState → Option FadeState := fadeTick 20000

/-- Orbital pulse initial animation state. -/
def orbitalPulseInit : FadeState := { radius := 30000, opacity := 0.6 }

/-- `createInterceptBeam` fade loop, part_000 lines 260 to 281: the
dashed beam only fades, opacity 0.9 dropping by 0.05 per tick, removed
once no longer positive. -/
def interceptBeamTick (opacity : Rat) : Option Rat :=
  let o2 := opacity - 0.05
  if 0 < o2 then some o2 else none

/-- Intercept beam initial opacity. -/
def interceptBeamInit : Rat := 0.9

/-- `animatePacket` movement loop, attackMap.js lines 177 to 204:
progress grows by 0.02 per tick; while below 1 the marker keeps
ticking, at 1 or beyond it is removed (and the impact flash spawns). -/
def packetTick (progress : Rat) : Option Rat :=
  let p2 := progress + 0.02
  if p2 < 1 then some p2 else none

/-- Animation state of `pulseBeam`: current opacity and oscillation
direction. -/
structure PulseState where
  opacity : Rat
  grow : Bool
  deriving DecidableEq

/-- `pulseBeam` oscillation, attackMap.js lines 317 to 332: opacity
moves by 0.02 up or down, the direction flips at 0.4 and 0.15, and the
loop unconditionally requests the next frame: no branch ever removes
the line or stops ticking. -/
def pulseBeamTick (st : PulseState) : Option PulseState :=
  let o := st.opacity + (if st.grow then 0.02 else -0.02)
  let g1 := if 0.4 ≤ o then false else st.grow
  let g2 := if o ≤ 0.15 then true else g1
  some { opacity := o, grow := g2 }

/-- Initial `pulseBeam` state: opacity 0.2, growing. -/
def pulseBeamInit : PulseState := { opacity := 0.2, grow := true }

/-- One particle of `createBeamTrail`, attackMap.js lines 210 to 240:
progress grows by 0.015 and wraps past 1 back to 0; the loop
unconditionally requests the next frame forever. -/
def beamTrailTick (progress : Rat) : Option Rat :=
  let q := progress + 0.015
  some (if 1 < q then 0 else q)

/-- Drive a tick-driven animation for `n` frames: `none` once the
animation has removed its layers and stopped requesting frames. -/
def animRun {σ : Type} (tick : σ → Option σ) : Nat → σ → Option σ
  | 0, st => some st
  | n + 1, st => (tick st).bind (animRun tick n)

/-- An animation self-terminates from `init` when after finitely many
ticks it removes its layers and stops requesting frames. -/
def AnimTerminates {σ : Type} (tick : σ → Option σ) (init : σ) : Prop :=
  ∃ n, animRun tick n init = none

/-- Concrete origin used by witnesses: the spec scenario origin (5,5). -/
def p55 : GeoPoint := { lat := 5, lng := 5 }

/-- Concrete point (10,10). -/
def p1010 : GeoPoint := { lat := 10, lng := 10 }

/-- Concrete destination used by witnesses: the spec scenario
destination (20,20). -/
def p2020 : GeoPoint := { lat := 20, lng := 20 }

/-- An event from (5,5) to (20,20) at the given time and severity. -/
def mkEvent (n : Nat) (sev : String) : TimedEvent :=
  { now := n, origin := p55, dest := p2020, severity := sev }

/-- An event from (5,5) to a chosen destination. -/
def mkEventTo (n : Nat) (d : GeoPoint) (sev : String) : TimedEvent :=
  { now := n, origin := p55, dest := d, severity := sev }

/-- The spec's escalation scenario: 12 accepted medium events 100 ms
apart followed by a critical one, driving defensePressure to 13 and
the escalation level to 3 on the final event. -/
def c7Events : List TimedEvent :=
  ((List.range 12).map (fun i => mkEvent (100 + i * 100) ("medium")))
    ++ [mkEvent 1300 ("critical")]

/-- State after an accepted medium call at t = 100 ms. -/
def c1State1 : EngineState := (drawAttackBeam initState 100 p55 p2020 ("medium")).1

/-- State after a further call at t = 150 ms (rejected: only 50 ms
after the accepted call at 100 ms). -/
def c1State2 : EngineState := (drawAttackBeam c1State1 150 p55 p2020 ("medium")).1

/-- State after a further call at t = 180 ms, 30 ms after the rejected
call at 150 ms but 80 ms after the last accepted one. -/
def c1State3 : EngineState := (drawAttackBeam c1State2 180 p55 p2020 ("medium")).1

/-- One critical attackMap.js call at t = 1000 ms on the fresh state. -/
def amCriticalCall : AMState × List AMEffect :=
  amDrawAttackBeam amInitState 1000 p55 p2020 ("critical")

/-- The attackMap.js state once the critical call's two delayed
origin-pulse tasks (0 ms and 150 ms) have fired. -/
def amAfterCritical : AMState :=
  amFireScheduledPulses amCriticalCall.1 amCriticalCall.2

/-- Escalation consistency: the stored level is the pure function of
the stored pressure.  Holds at load and after every call. -/
def EscInv (s : EngineState) : Prop :=
  s.escalationLevel = levelOfPressure s.defensePressure

/-- Dome consistency: once the initialization flag is set, the dome
layer exists.  Holds at load and after every call. -/
def DomeInv (s : EngineState) : Prop :=
  s.shieldDomeReady = true → s.shieldDomeLayer.isSome = true

theorem drawAttackBeam_of_rejected (s : EngineState) (now : Nat) (f t : GeoPoint)
    (sev : String) (h : now - s.lastDrawTime < 60) :
    drawAttackBeam s now f t sev = (s, []) :=
  if_pos h

theorem drawAttackBeam_of_accepted (s : EngineState) (now : Nat) (f t : GeoPoint)
    (sev : String) (h : accepts s now) :
    drawAttackBeam s now f t sev = drawAttackBeamAccepted s now f t sev :=
  if_neg h

theorem accepted_defensePressure (s : EngineState) (now : Nat) (f t : GeoPoint)
    (sev : String) :
    (drawAttackBeamAccepted s now f t sev).1.defensePressure = s.defensePressure + 1 :=
  rfl

theorem accepted_escalationLevel (s : EngineState) (now : Nat) (f t : GeoPoint)
    (sev : String) :
    (drawAttackBeamAccepted s now f t sev).1.escalationLevel
      = levelOfPressure (s.defensePressure + 1) :=
  rfl

theorem accepted_attackCount (s : EngineState) (now : Nat) (f t : GeoPoint)
    (sev : String) :
    (drawAttackBeamAccepted s now f t sev).1.attackCount = s.attackCount + 1 :=
  rfl

theorem accepted_lastDrawTime (s : EngineState) (now : Nat) (f t : GeoPoint)
    (sev : String) :
    (drawAttackBeamAccepted s now f t sev).1.lastDrawTime = now :=
  rfl

theorem accepted_shieldDomeReady (s : EngineState) (now : Nat) (f t : GeoPoint)
    (sev : String) :
    (drawAttackBeamAccepted s now f t sev).1.shieldDomeReady = true :=
  rfl

theorem accepted_shieldDomeLayer (s : EngineState) (now : Nat) (f t : GeoPoint)
    (sev : String) :
    (drawAttackBeamAccepted s now f t sev).1.shieldDomeLayer
      = (if s.shieldDomeReady then s.shieldDomeLayer else some t) :=
  rfl

theorem accepted_originIntensity (s : EngineState) (now : Nat) (f t : GeoPoint)
    (sev : String) :
    (drawAttackBeamAccepted s now f t sev).1.originIntensity
      = updFn s.originIntensity f (s.originIntensity f + 1) :=
  rfl

theorem accepted_heatZones (s : EngineState) (now : Nat) (f t : GeoPoint)
    (sev : String) :
    (drawAttackBeamAccepted s now f t sev).1.heatZones
      = updFn s.heatZones f (s.heatZones f + 1) :=
  rfl

theorem accepted_recentTargets (s : EngineState) (now : Nat) (f t : GeoPoint)
    (sev : String) :
    (drawAttackBeamAccepted s now f t sev).1.recentTargets
      = pushRecentTarget s.recentTargets t :=
  rfl

theorem updFn_same (m : GeoPoint → Nat) (k : GeoPoint) (v : Nat) :
    updFn m k v k = v := by
  simp [updFn]

theorem updFn_other (m : GeoPoint → Nat) (k x : GeoPoint) (v : Nat) (h : x ≠ k) :
    updFn m k v x = m x := by
  simp [updFn, h]

theorem levelOfPressure_mono {a b : Nat} (h : a ≤ b) :
    levelOfPressure a ≤ levelOfPressure b := by
  unfold levelOfPressure
  split_ifs <;> omega

theorem runEngine_nil (s : EngineState) : runEngine s [] = (s, []) := rfl

theorem runEngine_cons (s : EngineState) (e : TimedEvent) (rest : List TimedEvent) :
    runEngine s (e :: rest)
      = ((runEngine (drawAttackBeam s e.now e.origin e.dest e.severity).1 rest).1,
         (drawAttackBeam s e.now e.origin e.dest e.severity).2
           :: (runEngine (drawAttackBeam s e.now e.origin e.dest e.severity).1 rest).2) :=
  rfl

theorem runEngine_append_fst (s : EngineState) (l1 l2 : List TimedEvent) :
    (runEngine s (l1 ++ l2)).1 = (runEngine (runEngine s l1).1 l2).1 := by
  induction l1 generalizing s with
  | nil => rfl
  | cons e rest ih =>
      simp only [List.cons_append, runEngine_cons]
      exact ih _

theorem step_defensePressure_le (s : EngineState) (now : Nat) (f t : GeoPoint)
    (sev : String) :
    s.defensePressure ≤ (drawAttackBeam s now f t sev).1.defensePressure := by
  by_cases h : now - s.lastDrawTime < 60
  · rw [drawAttackBeam_of_rejected s now f t sev h]
  · rw [drawAttackBeam_of_accepted s now f t sev h, accepted_defensePressure]
    omega

theorem step_escInv (s : EngineState) (now : Nat) (f t : GeoPoint) (sev : String)
    (h : EscInv s) : EscInv (drawAttackBeam s now f t sev).1 := by
  by_cases hacc : now - s.lastDrawTime < 60
  · rw [drawAttackBeam_of_rejected s now f t sev hacc]
    exact h
  · rw [drawAttackBeam_of_accepted s now f t sev hacc]
    unfold EscInv
    rw [accepted_escalationLevel, accepted_defensePressure]

theorem run_defensePressure_le (s : EngineState) (evs : List TimedEvent) :
    s.defensePressure ≤ (runEngine s evs).1.defensePressure := by
  induction evs generalizing s with
  | nil => exact Nat.le_refl _
  | cons e rest ih =>
      rw [runEngine_cons]
      exact Nat.le_trans (step_defensePressure_le s e.now e.origin e.dest e.severity) (ih _)

theorem run_escInv (s : EngineState) (evs : List TimedEvent) (h : EscInv s) :
    EscInv (runEngine s evs).1 := by
  induction evs generalizing s with
  | nil => exact h
  | cons e rest ih =>
      rw [runEngine_cons]
      exact ih _ (step_escInv s e.now e.origin e.dest e.severity h)

theorem escInv_initState : EscInv initState := rfl

/-- C1 (amended).  Any `handleAttackEvent` call arriving less than
60 ms after the last accepted event is rejected as a complete no-op:
the whole engine state, including attackCount, defensePressure,
originIntensity, heatZones, recentTargets and the last-accepted
timestamp, is unchanged and no Effect is spawned; and the
last-accepted timestamp is updated, to the call's time, exactly when
the event is accepted.  (The unamended claim, that of any two calls
less than 60 ms apart the second is always rejected, fails when the
first of the two was itself rejected: see the counterexample.) -/
theorem c1_throttle_noop (s : EngineState) (now : Nat) (f t : GeoPoint)
    (sev : String) :
    (now - s.lastDrawTime < 60 → drawAttackBeam s now f t sev = (s, []))
    ∧ (accepts s now → (drawAttackBeam s now f t sev).1.lastDrawTime = now) := by
  constructor
  · intro h
    exact drawAttackBeam_of_rejected s now f t sev h
  · intro h
    rw [drawAttackBeam_of_accepted s now f t sev h]
    exact accepted_lastDrawTime s now f t sev

/-- C1 witness: a call 10 ms after load (last-accepted timestamp 0) is
rejected and leaves the state untouched. -/
theorem c1_throttle_noop_witness :
    drawAttackBeam initState 10 p55 p2020 ("low") = (initState, []) :=
  (c1_throttle_noop initState 10 p55 p2020 ("low")).1 (by decide)

/-- C1 counterexample to the claim as stated: the calls at 150 ms and
180 ms are separated by 30 ms, less than 60 ms, yet the second of them
is accepted and increments attackCount from 1 to 2 -- the call at
150 ms was itself rejected and did not move the last-accepted
timestamp, which still reads 100 ms. -/
theorem c1_counterexample :
    180 - 150 < 60
    ∧ c1State2.attackCount = 1
    ∧ c1State3.attackCount = 2
    ∧ c1State2.lastDrawTime = 100 := by
  refine ⟨by decide, by decide, by decide, by decide⟩

/-- C2.  For every accepted event defensePressure increases by exactly
one; it never decreases on any call; after every accepted event the
stored escalation level equals the pure function of pressure, which
maps pressure 0..6 to level 1, 7..12 to level 2 and above 12 to level
3; and consequently the escalation level is non-decreasing over any
run of the engine from load. -/
theorem c2_pressure_escalation :
    (∀ (s : EngineState) (now : Nat) (f t : GeoPoint) (sev : String),
      accepts s now →
        (drawAttackBeam s now f t sev).1.defensePressure = s.defensePressure + 1
        ∧ (drawAttackBeam s now f t sev).1.escalationLevel
            = levelOfPressure ((drawAttackBeam s now f t sev).1.defensePressure))
    ∧ (∀ p : Nat,
        (p ≤ 6 → levelOfPressure p = 1)
        ∧ (7 ≤ p → p ≤ 12 → levelOfPressure p = 2)
        ∧ (12 < p → levelOfPressure p = 3))
    ∧ (∀ (s : EngineState) (now : Nat) (f t : GeoPoint) (sev : String),
        s.defensePressure ≤ (drawAttackBeam s now f t sev).1.defensePressure)
    ∧ (∀ evs evs2 : List TimedEvent,
        (runEngine initState evs).1.escalationLevel
          ≤ (runEngine initState (evs ++ evs2)).1.escalationLevel) := by
  refine ⟨?_, ?_, step_defensePressure_le, ?_⟩
  · intro s now f t sev h
    rw [drawAttackBeam_of_accepted s now f t sev h]
    exact ⟨accepted_defensePressure s now f t sev,
      by rw [accepted_escalationLevel, accepted_defensePressure]⟩
  · intro p
    refine ⟨?_, ?_, ?_⟩ <;> (unfold levelOfPressure; split_ifs <;> omega)
  · intro evs evs2
    have h1 : EscInv (runEngine initState evs).1 := run_escInv _ _ escInv_initState
    have h2 : EscInv (runEngine initState (evs ++ evs2)).1 := run_escInv _ _ escInv_initState
    rw [h1, h2, runEngine_append_fst]
    exact levelOfPressure_mono (run_defensePressure_le _ _)

/-- C2 witness: the first accepted event raises defensePressure from 0
to 1 and leaves the escalation level at level(1) = 1. -/
theorem c2_pressure_escalation_witness :
    (drawAttackBeam initState 100 p55 p2020 ("medium")).1.defensePressure
      = initState.defensePressure + 1 :=
  (c2_pressure_escalation.1 initState 100 p55 p2020 ("medium") (by decide)).1

/-- C5.  RecentTargets is a bounded FIFO of at most 5 points: each
accepted event appends its destination; a push on a buffer of at most
4 is a plain append; a push on a full buffer of 5 drops the oldest
entry; pushing 7 points into the empty buffer leaves exactly the last
5 in oldest-to-newest order; and along any run from load the buffer
never exceeds 5 entries. -/
theorem c5_recent_targets_fifo :
    (∀ (l : List GeoPoint) (p : GeoPoint), l.length ≤ 5 →
      (pushRecentTarget l p).length ≤ 5)
    ∧ (∀ (l : List GeoPoint) (p : GeoPoint), l.length ≤ 4 →
        pushRecentTarget l p = l ++ [p])
    ∧ (∀ (l : List GeoPoint) (p : GeoPoint), l.length = 5 →
        pushRecentTarget l p = l.tail ++ [p])
    ∧ (∀ (a b c d e f g : GeoPoint),
        List.foldl pushRecentTarget [] [a, b, c, d, e, f, g] = [c, d, e, f, g])
    ∧ (∀ (s : EngineState) (now : Nat) (f t : GeoPoint) (sev : String),
        accepts s now →
          (drawAttackBeam s now f t sev).1.recentTargets
            = pushRecentTarget s.recentTargets t)
    ∧ (∀ evs : List TimedEvent, (runEngine initState evs).1.recentTargets.length ≤ 5) := by
  have hdef : ∀ (l : List GeoPoint) (p : GeoPoint),
      pushRecentTarget l p
        = if 5 < (l ++ [p]).length then (l ++ [p]).tail else l ++ [p] :=
    fun _ _ => rfl
  have hbound : ∀ (l : List GeoPoint) (p : GeoPoint), l.length ≤ 5 →
      (pushRecentTarget l p).length ≤ 5 := by
    intro l p h
    rw [hdef]
    split_ifs with hlen
    · simp only [List.length_tail, List.length_append, List.length_cons,
        List.length_nil]
      omega
    · simp only [List.length_append, List.length_cons, List.length_nil] at hlen ⊢
      omega
  have hstep : ∀ (s : EngineState) (now : Nat) (f t : GeoPoint) (sev : String),
      accepts s now →
        (drawAttackBeam s now f t sev).1.recentTargets
          = pushRecentTarget s.recentTargets t := by
    intro s now f t sev h
    rw [drawAttackBeam_of_accepted s now f t sev h]
    exact accepted_recentTargets s now f t sev
  refine ⟨hbound, ?_, ?_, ?_, hstep, ?_⟩
  · intro l p h
    rw [hdef, if_neg]
    simp only [List.length_append, List.length_cons, List.length_nil]
    omega
  · intro l p h
    rw [hdef, if_pos]
    · cases l with
      | nil => simp at h
      | cons x xs => simp
    · simp only [List.length_append, List.length_cons, List.length_nil]
      omega
  · intro a b c d e f g
    simp [hdef]
  · intro evs
    have : ∀ (s : EngineState) (evs : List TimedEvent), s.recentTargets.length ≤ 5 →
        (runEngine s evs).1.recentTargets.length ≤ 5 := by
      intro s evs
      induction evs generalizing s with
      | nil => exact fun h => h
      | cons e rest ih =>
          intro h
          rw [runEngine_cons]
          refine ih _ ?_
          by_cases hacc : e.now - s.lastDrawTime < 60
          · rw [drawAttackBeam_of_rejected s e.now e.origin e.dest e.severity hacc]
            exact h
          · rw [drawAttackBeam_of_accepted s e.now e.origin e.dest e.severity hacc,
              accepted_recentTargets]
            exact hbound _ _ h
    exact this initState evs (by decide)

/-- C5 witness: pushing seven concrete points leaves the last five. -/
theorem c5_recent_targets_fifo_witness :
    List.foldl pushRecentTarget []
      [p55, p1010, p2020, p55, p1010, p2020, p55]
      = [p2020, p55, p1010, p2020, p55] :=
  c5_recent_targets_fifo.2.2.2.1 p55 p1010 p2020 p55 p1010 p2020 p55

theorem mem_ite_singleton {α : Type} (a b : α) (c : Prop) [Decidable c] :
    (a ∈ if c then [b] else []) ↔ c ∧ a = b := by
  split_ifs with h <;> simp [h]

theorem criticalBlock_critical (se : Bool) (ls lp : Option Nat) (lvl now : Nat)
    (f t : GeoPoint) :
    (criticalBlock ("critical") se ls lp lvl now f t).2.2
      = (if se && throttleOpen ls now 800 then [Effect.criticalSoundFx] else [])
        ++ ((if 2 ≤ lvl then [Effect.orbitalPulse t] else [])
            ++ (if lvl = 3 then [Effect.globalPulse] else []))
        ++ [Effect.impactFlash f ("#ff0033")]
        ++ (if throttleOpen lp now 1500 then [Effect.globalPulse] else [])
        ++ [Effect.shieldImpact t, Effect.orbitalPulse t, Effect.satelliteLock t]
        ++ [Effect.interceptTask (defenseResponseDelay ("critical"))] :=
  rfl

theorem criticalBlock_not_critical (sev : String) (se : Bool) (ls lp : Option Nat)
    (lvl now : Nat) (f t : GeoPoint) (hc : sev ≠ "critical") :
    criticalBlock sev se ls lp lvl now f t = (ls, lp, []) := by
  unfold criticalBlock
  rw [if_neg hc]

theorem mem_criticalBlock (sev : String) (se : Bool) (ls lp : Option Nat)
    (lvl now : Nat) (f t : GeoPoint) (eff : Effect)
    (h : eff ∈ (criticalBlock sev se ls lp lvl now f t).2.2) :
    sev = "critical"
    ∧ (eff = Effect.criticalSoundFx ∨ eff = Effect.orbitalPulse t
       ∨ eff = Effect.globalPulse ∨ eff = Effect.impactFlash f ("#ff0033")
       ∨ eff = Effect.shieldImpact t ∨ eff = Effect.satelliteLock t
       ∨ eff = Effect.interceptTask (defenseResponseDelay sev)) := by
  by_cases hc : sev = "critical"
  · subst hc
    rw [criticalBlock_critical] at h
    refine ⟨rfl, ?_⟩
    simp only [List.mem_append, mem_ite_singleton, List.mem_cons,
      List.mem_singleton, List.not_mem_nil] at h
    tauto
  · rw [criticalBlock_not_critical sev se ls lp lvl now f t hc] at h
    simp at h

theorem interceptTask_mem_criticalBlock (se : Bool) (ls lp : Option Nat)
    (lvl now : Nat) (f t : GeoPoint) :
    Effect.interceptTask (defenseResponseDelay ("critical"))
      ∈ (criticalBlock ("critical") se ls lp lvl now f t).2.2 := by
  rw [criticalBlock_critical]
  simp

theorem accepted_effects (s : EngineState) (now : Nat) (f t : GeoPoint)
    (sev : String) :
    (drawAttackBeamAccepted s now f t sev).2
      = (if s.shieldDomeReady then [] else [Effect.domeCreated t])
        ++ [Effect.originPulse f (min (s.originIntensity f + 1) 8),
            Effect.countryAura f,
            Effect.heatZoneGlow f (min (s.heatZones f + 1) 6)]
        ++ detectThreatCluster (updFn s.heatZones f (s.heatZones f + 1)) f
        ++ [Effect.beamLine f t ((severityColors sev).getD ("#00ffff"))]
        ++ (criticalBlock sev s.soundEnabled s.lastSoundTime s.lastGlobalPulse
              (levelOfPressure (s.defensePressure + 1)) now f t).2.2
        ++ [Effect.packetStart f t ((severityColors sev).getD ("#00ffff")),
            Effect.trajectory f t,
            Effect.shieldRipple t sev] :=
  rfl

theorem detectThreatCluster_updFn (m : GeoPoint → Nat) (f : GeoPoint) (v : Nat) :
    detectThreatCluster (updFn m f v) f
      = if 4 ≤ v then [Effect.clusterWarning f] else [] := by
  unfold detectThreatCluster
  rw [updFn_same]

theorem clusterWarning_not_mem_criticalBlock (x : GeoPoint) (sev : String)
    (se : Bool) (ls lp : Option Nat) (lvl now : Nat) (f t : GeoPoint) :
    Effect.clusterWarning x ∉ (criticalBlock sev se ls lp lvl now f t).2.2 := by
  intro h
  rcases mem_criticalBlock sev se ls lp lvl now f t _ h with ⟨_, h2⟩
  rcases h2 with h3 | h3 | h3 | h3 | h3 | h3 | h3 <;> simp at h3

theorem domeCreated_not_mem_criticalBlock (x : GeoPoint) (sev : String)
    (se : Bool) (ls lp : Option Nat) (lvl now : Nat) (f t : GeoPoint) :
    Effect.domeCreated x ∉ (criticalBlock sev se ls lp lvl now f t).2.2 := by
  intro h
  rcases mem_criticalBlock sev se ls lp lvl now f t _ h with ⟨_, h2⟩
  rcases h2 with h3 | h3 | h3 | h3 | h3 | h3 | h3 <;> simp at h3

theorem originPulse_not_mem_criticalBlock (x : GeoPoint) (n : Nat) (sev : String)
    (se : Bool) (ls lp : Option Nat) (lvl now : Nat) (f t : GeoPoint) :
    Effect.originPulse x n ∉ (criticalBlock sev se ls lp lvl now f t).2.2 := by
  intro h
  rcases mem_criticalBlock sev se ls lp lvl now f t _ h with ⟨_, h2⟩
  rcases h2 with h3 | h3 | h3 | h3 | h3 | h3 | h3 <;> simp at h3

theorem countAcceptedFrom_cons (s : EngineState) (e : TimedEvent)
    (rest : List TimedEvent) (k : GeoPoint) :
    countAcceptedFrom s (e :: rest) k
      = (if accepts s e.now ∧ e.origin = k then 1 else 0)
        + countAcceptedFrom (drawAttackBeam s e.now e.origin e.dest e.severity).1 rest k :=
  rfl

theorem run_heatZones_count (evs : List TimedEvent) :
    ∀ (s : EngineState) (k : GeoPoint),
      (runEngine s evs).1.heatZones k = s.heatZones k + countAcceptedFrom s evs k := by
  induction evs with
  | nil => intro s k; rfl
  | cons e rest ih =>
      intro s k
      rw [runEngine_cons, countAcceptedFrom_cons]
      by_cases hacc : e.now - s.lastDrawTime < 60
      · rw [drawAttackBeam_of_rejected _ _ _ _ _ hacc,
          if_neg (fun hcon => hcon.1 hacc)]
        show (runEngine s rest).1.heatZones k
          = s.heatZones k + (0 + countAcceptedFrom s rest k)
        rw [ih s k]
        omega
      · rw [drawAttackBeam_of_accepted _ _ _ _ _ hacc, ih, accepted_heatZones]
        by_cases hk : e.origin = k
        · subst hk
          rw [updFn_same, if_pos ⟨hacc, rfl⟩]
          omega
        · rw [updFn_other _ _ _ _ (fun hkk => hk hkk.symm),
            if_neg (fun hcon => hk hcon.2)]
          omega

/-- C6.  For every accepted event, the heat counter of the event's
origin key is incremented by exactly one and other keys are untouched;
the counter is never decremented by any call; the cluster-warning
effect is spawned exactly when the incremented counter has reached 4;
and along any run from load the heat counter of a key equals the
number of accepted events from that exact key, so the Nth accepted
event from one key spawns the cluster warning iff N is at least 4. -/
theorem c6_heat_cluster (s : EngineState) (now : Nat) (f t : GeoPoint) (sev : String) :
    (accepts s now →
      (drawAttackBeam s now f t sev).1.heatZones f = s.heatZones f + 1
      ∧ (∀ g, g ≠ f → (drawAttackBeam s now f t sev).1.heatZones g = s.heatZones g)
      ∧ (Effect.clusterWarning f ∈ (drawAttackBeam s now f t sev).2
          ↔ 4 ≤ s.heatZones f + 1))
    ∧ (∀ g, s.heatZones g ≤ (drawAttackBeam s now f t sev).1.heatZones g)
    ∧ (∀ (evs : List TimedEvent) (k : GeoPoint),
        (runEngine initState evs).1.heatZones k = countAcceptedFrom initState evs k) := by
  refine ⟨?_, ?_, ?_⟩
  · intro hacc
    rw [drawAttackBeam_of_accepted s now f t sev hacc]
    refine ⟨by rw [accepted_heatZones, updFn_same], ?_, ?_⟩
    · intro g hg
      rw [accepted_heatZones, updFn_other _ _ _ _ hg]
    · rw [accepted_effects, detectThreatCluster_updFn]
      have hcb := clusterWarning_not_mem_criticalBlock f sev s.soundEnabled
        s.lastSoundTime s.lastGlobalPulse (levelOfPressure (s.defensePressure + 1)) now f t
      simp only [List.mem_append, mem_ite_singleton, List.mem_cons,
        List.mem_singleton, List.not_mem_nil, or_false, false_or]
      simp [hcb]
  · intro g
    by_cases hacc : now - s.lastDrawTime < 60
    · rw [drawAttackBeam_of_rejected _ _ _ _ _ hacc]
    · rw [drawAttackBeam_of_accepted _ _ _ _ _ hacc, accepted_heatZones]
      unfold updFn
      split_ifs with h
      · subst h
        omega
      · exact Nat.le_refl _
  · intro evs k
    have h := run_heatZones_count evs initState k
    simpa [initState] using h

/-- C6 witness: on the fresh engine an accepted event from (5,5)
raises that key's heat counter to 1 and, 1 being under the threshold
4, spawns no cluster warning. -/
theorem c6_heat_cluster_witness :
    (drawAttackBeam initState 100 p55 p2020 ("medium")).1.heatZones p55
      = initState.heatZones p55 + 1 :=
  ((c6_heat_cluster initState 100 p55 p2020 ("medium")).1 (by decide)).1

theorem step_layer_frozen (s : EngineState) (now : Nat) (f t : GeoPoint)
    (sev : String) (h : s.shieldDomeReady = true) :
    (drawAttackBeam s now f t sev).1.shieldDomeLayer = s.shieldDomeLayer
    ∧ (drawAttackBeam s now f t sev).1.shieldDomeReady = true := by
  by_cases hacc : now - s.lastDrawTime < 60
  · rw [drawAttackBeam_of_rejected _ _ _ _ _ hacc]
    exact ⟨rfl, h⟩
  · rw [drawAttackBeam_of_accepted _ _ _ _ _ hacc]
    rw [accepted_shieldDomeLayer, h]
    exact ⟨if_pos rfl, accepted_shieldDomeReady s now f t sev⟩

theorem run_layer_frozen (evs : List TimedEvent) :
    ∀ (s : EngineState), s.shieldDomeReady = true →
      (runEngine s evs).1.shieldDomeLayer = s.shieldDomeLayer
      ∧ (runEngine s evs).1.shieldDomeReady = true := by
  induction evs with
  | nil => exact fun s h => ⟨rfl, h⟩
  | cons e rest ih =>
      intro s h
      rw [runEngine_cons]
      have hs := step_layer_frozen s e.now e.origin e.dest e.severity h
      have hr := ih _ hs.2
      exact ⟨hr.1.trans hs.1, hr.2⟩

theorem countP_domeCreated_criticalBlock (sev : String) (se : Bool)
    (ls lp : Option Nat) (lvl now : Nat) (f t : GeoPoint) :
    (criticalBlock sev se ls lp lvl now f t).2.2.countP isDomeCreated = 0 := by
  rw [List.countP_eq_zero]
  intro a ha
  rcases mem_criticalBlock sev se ls lp lvl now f t _ ha with ⟨_, h2⟩
  rcases h2 with h3 | h3 | h3 | h3 | h3 | h3 | h3 <;> subst h3 <;> simp [isDomeCreated]

theorem countP_domeCreated_accepted (s : EngineState) (now : Nat) (f t : GeoPoint)
    (sev : String) :
    (drawAttackBeamAccepted s now f t sev).2.countP isDomeCreated
      = if s.shieldDomeReady then 0 else 1 := by
  rw [accepted_effects, detectThreatCluster_updFn]
  simp only [List.countP_append, countP_domeCreated_criticalBlock]
  split_ifs <;> simp [List.countP_cons, isDomeCreated]

theorem domeCreatedTotal_cons (l : List Effect) (outs : List (List Effect)) :
    domeCreatedTotal (l :: outs) = l.countP isDomeCreated + domeCreatedTotal outs := by
  simp [domeCreatedTotal]

theorem run_domeTotal_ready (evs : List TimedEvent) :
    ∀ (s : EngineState), s.shieldDomeReady = true →
      domeCreatedTotal (runEngine s evs).2 = 0 := by
  induction evs with
  | nil => intro s _; rfl
  | cons e rest ih =>
      intro s h
      rw [runEngine_cons, domeCreatedTotal_cons]
      have hstep : (drawAttackBeam s e.now e.origin e.dest e.severity).2.countP
          isDomeCreated = 0 := by
        by_cases hacc : e.now - s.lastDrawTime < 60
        · rw [drawAttackBeam_of_rejected _ _ _ _ _ hacc]
          rfl
        · rw [drawAttackBeam_of_accepted _ _ _ _ _ hacc,
            countP_domeCreated_accepted, if_pos h]
      rw [hstep, ih _ (step_layer_frozen s e.now e.origin e.dest e.severity h).2]

theorem run_domeTotal_le_one (evs : List TimedEvent) :
    ∀ (s : EngineState), s.shieldDomeReady = false →
      domeCreatedTotal (runEngine s evs).2 ≤ 1 := by
  induction evs with
  | nil => intro s _; exact Nat.zero_le 1
  | cons e rest ih =>
      intro s h
      rw [runEngine_cons, domeCreatedTotal_cons]
      by_cases hacc : e.now - s.lastDrawTime < 60
      · rw [drawAttackBeam_of_rejected _ _ _ _ _ hacc]
        show (([] : List Effect)).countP isDomeCreated
          + domeCreatedTotal (runEngine s rest).2 ≤ 1
        rw [List.countP_nil]
        have hr := ih s h
        omega
      · rw [drawAttackBeam_of_accepted _ _ _ _ _ hacc,
          countP_domeCreated_accepted, if_neg (by rw [h]; exact Bool.false_ne_true)]
        have hz := run_domeTotal_ready rest
          (drawAttackBeamAccepted s e.now e.origin e.dest e.severity).1
          (accepted_shieldDomeReady s e.now e.origin e.dest e.severity)
        omega

/-- C4.  Across any run from load, at most one ShieldDome-creation
effect is ever emitted; once the dome flag is set, no later call moves
the dome layer or emits another creation; and whenever an event is
accepted while the dome flag is still unset (that is, by the very
first accepted event), the dome ends up anchored at that event's
destination for the remainder of any run. -/
theorem c4_shield_dome_singleton :
    (∀ evs : List TimedEvent, domeCreatedTotal (runEngine initState evs).2 ≤ 1)
    ∧ (∀ (s : EngineState) (now : Nat) (f t : GeoPoint) (sev : String),
        s.shieldDomeReady = true →
          (drawAttackBeam s now f t sev).1.shieldDomeLayer = s.shieldDomeLayer
          ∧ (∀ c, Effect.domeCreated c ∉ (drawAttackBeam s now f t sev).2))
    ∧ (∀ (evs1 : List TimedEvent) (e : TimedEvent) (evs2 : List TimedEvent),
        (runEngine initState evs1).1.shieldDomeReady = false →
        accepts (runEngine initState evs1).1 e.now →
          (runEngine initState (evs1 ++ e :: evs2)).1.shieldDomeLayer = some e.dest) := by
  refine ⟨?_, ?_, ?_⟩
  · intro evs
    exact run_domeTotal_le_one evs initState rfl
  · intro s now f t sev h
    refine ⟨(step_layer_frozen s now f t sev h).1, ?_⟩
    intro c hc
    by_cases hacc : now - s.lastDrawTime < 60
    · rw [drawAttackBeam_of_rejected _ _ _ _ _ hacc] at hc
      simp at hc
    · rw [drawAttackBeam_of_accepted _ _ _ _ _ hacc, accepted_effects,
        detectThreatCluster_updFn, h] at hc
      have hcb := domeCreated_not_mem_criticalBlock c sev s.soundEnabled
        s.lastSoundTime s.lastGlobalPulse (levelOfPressure (s.defensePressure + 1)) now f t
      simp [mem_ite_singleton, hcb] at hc
  · intro evs1 e evs2 h1 hacc
    rw [runEngine_append_fst]
    have hstep : (drawAttackBeam (runEngine initState evs1).1 e.now e.origin
        e.dest e.severity).1.shieldDomeLayer = some e.dest := by
      rw [drawAttackBeam_of_accepted _ _ _ _ _ hacc, accepted_shieldDomeLayer, h1]
      simp
    have hready : (drawAttackBeam (runEngine initState evs1).1 e.now e.origin
        e.dest e.severity).1.shieldDomeReady = true := by
      rw [drawAttackBeam_of_accepted _ _ _ _ _ hacc]
      exact accepted_shieldDomeReady _ _ _ _ _
    rw [runEngine_cons]
    exact ((run_layer_frozen evs2 _ hready).1).trans hstep

/-- C4 witness: after one accepted event from (5,5) to (20,20) and a
later one to (10,10), the dome stays anchored at (20,20). -/
theorem c4_shield_dome_singleton_witness :
    (runEngine initState
        ([] ++ (mkEvent 100 ("medium")) :: [mkEventTo 200 p1010 ("medium")])).1.shieldDomeLayer
      = some (mkEvent 100 ("medium")).dest :=
  c4_shield_dome_singleton.2.2 [] (mkEvent 100 ("medium"))
    [mkEventTo 200 p1010 ("medium")] (by decide) (by decide)

theorem runEngine_cons_fst (s : EngineState) (e : TimedEvent) (rest : List TimedEvent) :
    (runEngine s (e :: rest)).1
      = (runEngine (drawAttackBeam s e.now e.origin e.dest e.severity).1 rest).1 :=
  rfl

theorem step_domeInv (s : EngineState) (now : Nat) (f t : GeoPoint) (sev : String)
    (h : DomeInv s) : DomeInv (drawAttackBeam s now f t sev).1 := by
  by_cases hacc : now - s.lastDrawTime < 60
  · rw [drawAttackBeam_of_rejected _ _ _ _ _ hacc]
    exact h
  · rw [drawAttackBeam_of_accepted _ _ _ _ _ hacc]
    unfold DomeInv
    intro _
    rw [accepted_shieldDomeLayer]
    by_cases hr : s.shieldDomeReady
    · rw [if_pos hr]
      exact h hr
    · rw [if_neg hr]
      rfl

theorem run_domeInv (evs : List TimedEvent) :
    ∀ (s : EngineState), DomeInv s → DomeInv (runEngine s evs).1 := by
  induction evs with
  | nil => exact fun s h => h
  | cons e rest ih =>
      intro s h
      rw [runEngine_cons_fst]
      exact ih _ (step_domeInv s e.now e.origin e.dest e.severity h)

theorem step_layer_isSome (s : EngineState) (now : Nat) (f t : GeoPoint)
    (sev : String) (h : s.shieldDomeLayer.isSome = true) :
    (drawAttackBeam s now f t sev).1.shieldDomeLayer.isSome = true := by
  by_cases hacc : now - s.lastDrawTime < 60
  · rw [drawAttackBeam_of_rejected _ _ _ _ _ hacc]
    exact h
  · rw [drawAttackBeam_of_accepted _ _ _ _ _ hacc, accepted_shieldDomeLayer]
    by_cases hr : s.shieldDomeReady
    · rw [if_pos hr]
      exact h
    · rw [if_neg hr]
      rfl

theorem run_layer_isSome (evs : List TimedEvent) :
    ∀ (s : EngineState), s.shieldDomeLayer.isSome = true →
      (runEngine s evs).1.shieldDomeLayer.isSome = true := by
  induction evs with
  | nil => exact fun s h => h
  | cons e rest ih =>
      intro s h
      rw [runEngine_cons_fst]
      exact ih _ (step_layer_isSome s e.now e.origin e.dest e.severity h)

/-- C10.  The missing-ShieldDome skip branch of `multiIntercept` is
unreachable: if an interception task was scheduled by some call (which
forces that call to have been accepted, and an accepted call always
leaves the dome layer in place), then at any later point of the run
the dome layer still exists and `multiIntercept` takes its non-skip
branch, producing one staggered intercept beam per recent target. -/
theorem c10_no_dome_skip (evs1 : List TimedEvent) (e : TimedEvent)
    (evs2 : List TimedEvent) (d : Nat)
    (hsched : Effect.interceptTask d
      ∈ (drawAttackBeam (runEngine initState evs1).1 e.now e.origin e.dest
          e.severity).2) :
    (runEngine initState (evs1 ++ e :: evs2)).1.shieldDomeLayer.isSome = true
    ∧ ∃ c, (runEngine initState (evs1 ++ e :: evs2)).1.shieldDomeLayer = some c
        ∧ multiIntercept (runEngine initState (evs1 ++ e :: evs2)).1.shieldDomeLayer
            (runEngine initState (evs1 ++ e :: evs2)).1.recentTargets e.severity
          = (runEngine initState (evs1 ++ e :: evs2)).1.recentTargets.enum.map
              (fun p => (p.1 * 120, Effect.interceptBeam c p.2 e.severity)) := by
  have hdinv : DomeInv (runEngine initState evs1).1 :=
    run_domeInv evs1 initState (by intro h; exact absurd h (by decide))
  have hacc : ¬ e.now - (runEngine initState evs1).1.lastDrawTime < 60 := by
    intro hlt
    rw [drawAttackBeam_of_rejected _ _ _ _ _ hlt] at hsched
    simp at hsched
  have hsome : (drawAttackBeam (runEngine initState evs1).1 e.now e.origin e.dest
      e.severity).1.shieldDomeLayer.isSome = true := by
    rw [drawAttackBeam_of_accepted _ _ _ _ _ hacc, accepted_shieldDomeLayer]
    by_cases hr : (runEngine initState evs1).1.shieldDomeReady
    · rw [if_pos hr]
      exact hdinv hr
    · rw [if_neg hr]
      rfl
  rw [runEngine_append_fst, runEngine_cons_fst]
  have hrun := run_layer_isSome evs2 _ hsome
  refine ⟨hrun, ?_⟩
  obtain ⟨c, hc⟩ := Option.isSome_iff_exists.mp hrun
  refine ⟨c, hc, ?_⟩
  rw [hc]
  rfl

/-- C10 witness: a single critical event scheduling the interception
leaves the dome layer in place when the task fires. -/
theorem c10_no_dome_skip_witness :
    (runEngine initState ([] ++ (mkEvent 100 ("critical")) :: [])).1.shieldDomeLayer.isSome
      = true :=
  (c10_no_dome_skip [] (mkEvent 100 ("critical")) [] 80 (by decide)).1

theorem enumFrom_cons_eq {α : Type} (n : Nat) (x : α) (xs : List α) :
    List.enumFrom n (x :: xs) = (n, x) :: List.enumFrom (n + 1) xs :=
  rfl

theorem intercept_map_snd (c : GeoPoint) (sev : String) (ts : List GeoPoint) :
    ∀ n : Nat,
      ((List.enumFrom n ts).map
          (fun p => (p.1 * 120, Effect.interceptBeam c p.2 sev))).map Prod.snd
        = ts.map (fun x => Effect.interceptBeam c x sev) := by
  induction ts with
  | nil => intro n; rfl
  | cons x xs ih =>
      intro n
      rw [enumFrom_cons_eq, List.map_cons, List.map_cons, List.map_cons, ih (n + 1)]

theorem intercept_map_fst (c : GeoPoint) (sev : String) (ts : List GeoPoint) :
    ∀ n : Nat,
      ((List.enumFrom n ts).map
          (fun p => (p.1 * 120, Effect.interceptBeam c p.2 sev))).map Prod.fst
        = (List.range' n ts.length).map (fun i => i * 120) := by
  induction ts with
  | nil => intro n; rfl
  | cons x xs ih =>
      intro n
      rw [enumFrom_cons_eq, List.map_cons, List.map_cons, List.length_cons,
        List.range'_succ, List.map_cons, ih (n + 1)]

theorem multiIntercept_some_fst (c : GeoPoint) (ts : List GeoPoint) (sev : String) :
    (multiIntercept (some c) ts sev).map Prod.fst
      = (List.range ts.length).map (fun i => i * 120) := by
  rw [List.range_eq_range']
  exact intercept_map_fst c sev ts 0

theorem multiIntercept_some_snd (c : GeoPoint) (ts : List GeoPoint) (sev : String) :
    (multiIntercept (some c) ts sev).map Prod.snd
      = ts.map (fun x => Effect.interceptBeam c x sev) :=
  intercept_map_snd c sev ts 0

theorem multiIntercept_some_length (c : GeoPoint) (ts : List GeoPoint) (sev : String) :
    (multiIntercept (some c) ts sev).length = ts.length := by
  have h := congrArg List.length (multiIntercept_some_snd c ts sev)
  rwa [List.length_map, List.length_map] at h

/-- C3.  The severity-specific response delays are 80 ms for critical,
160 for high, 260 for medium and 340 otherwise; an accepted critical
event schedules the interception task with the 80 ms delay, and the
choreography it triggers fires exactly one intercept beam per point
then in RecentTargets, in oldest-to-newest order, with staggered start
offsets 0, 120, ..., (k-1)*120 ms; an event of any other severity
schedules no interception at all. -/
theorem c3_interception_stagger (s : EngineState) (now : Nat) (f t : GeoPoint)
    (sev : String) :
    defenseResponseDelay ("critical") = 80
    ∧ defenseResponseDelay ("high") = 160
    ∧ defenseResponseDelay ("medium") = 260
    ∧ (sev ≠ "critical" → sev ≠ "high" → sev ≠ "medium" →
        defenseResponseDelay sev = 340)
    ∧ (accepts s now → DomeInv s → sev = "critical" →
        Effect.interceptTask 80 ∈ (drawAttackBeam s now f t sev).2
        ∧ ∃ c, (drawAttackBeam s now f t sev).1.shieldDomeLayer = some c
            ∧ multiIntercept (drawAttackBeam s now f t sev).1.shieldDomeLayer
                (drawAttackBeam s now f t sev).1.recentTargets sev
              = ((drawAttackBeam s now f t sev).1.recentTargets.enum.map
                  (fun p => (p.1 * 120, Effect.interceptBeam c p.2 sev)))
            ∧ (multiIntercept (drawAttackBeam s now f t sev).1.shieldDomeLayer
                 (drawAttackBeam s now f t sev).1.recentTargets sev).map Prod.fst
                = (List.range
                    (drawAttackBeam s now f t sev).1.recentTargets.length).map
                      (fun i => i * 120)
            ∧ (multiIntercept (drawAttackBeam s now f t sev).1.shieldDomeLayer
                 (drawAttackBeam s now f t sev).1.recentTargets sev).map Prod.snd
                = (drawAttackBeam s now f t sev).1.recentTargets.map
                    (fun x => Effect.interceptBeam c x sev)
            ∧ (multiIntercept (drawAttackBeam s now f t sev).1.shieldDomeLayer
                 (drawAttackBeam s now f t sev).1.recentTargets sev).length
                = (drawAttackBeam s now f t sev).1.recentTargets.length)
    ∧ (sev ≠ "critical" →
        ∀ d2, Effect.interceptTask d2 ∉ (drawAttackBeam s now f t sev).2) := by
  refine ⟨by decide, by decide, by decide, ?_, ?_, ?_⟩
  · intro h1 h2 h3
    unfold defenseResponseDelay
    rw [if_neg h1, if_neg h2, if_neg h3]
  · intro hacc hdinv hc
    subst hc
    rw [drawAttackBeam_of_accepted _ _ _ _ _ hacc]
    constructor
    · rw [accepted_effects]
      have h80 : defenseResponseDelay ("critical") = 80 := by decide
      have hmem := interceptTask_mem_criticalBlock s.soundEnabled s.lastSoundTime
        s.lastGlobalPulse (levelOfPressure (s.defensePressure + 1)) now f t
      rw [h80] at hmem
      simp only [List.mem_append]
      tauto
    · have hsome : (drawAttackBeamAccepted s now f t ("critical")).1.shieldDomeLayer.isSome
          = true := by
        rw [accepted_shieldDomeLayer]
        by_cases hr : s.shieldDomeReady
        · rw [if_pos hr]
          exact hdinv hr
        · rw [if_neg hr]
          rfl
      obtain ⟨c, hc2⟩ := Option.isSome_iff_exists.mp hsome
      refine ⟨c, hc2, ?_, ?_, ?_, ?_⟩
      · rw [hc2]
        rfl
      · rw [hc2, multiIntercept_some_fst]
      · rw [hc2, multiIntercept_some_snd]
      · rw [hc2, multiIntercept_some_length]
  · intro hc d2 hmem
    by_cases hacc : now - s.lastDrawTime < 60
    · rw [drawAttackBeam_of_rejected _ _ _ _ _ hacc] at hmem
      simp at hmem
    · rw [drawAttackBeam_of_accepted _ _ _ _ _ hacc, accepted_effects,
        criticalBlock_not_critical sev s.soundEnabled s.lastSoundTime
          s.lastGlobalPulse (levelOfPressure (s.defensePressure + 1)) now f t hc,
        detectThreatCluster_updFn] at hmem
      simp [mem_ite_singleton] at hmem

/-- C3 witness: the first accepted critical event schedules the
interception task with the critical 80 ms delay. -/
theorem c3_interception_stagger_witness :
    Effect.interceptTask 80 ∈ (drawAttackBeam initState 100 p55 p2020 ("critical")).2 :=
  ((c3_interception_stagger initState 100 p55 p2020 ("critical")).2.2.2.2.1
    (by decide) (by intro h; exact absurd h (by decide)) rfl).1

/-- C7 (code bug).  The spec's own scenario -- 12 accepted medium
events 100 ms apart, then a critical one -- drives defensePressure to
13 and the escalation level to 3, and the 13th call spawns the global
defense pulse TWICE within that single call: once unthrottled from the
level-3 escalation branch (part_000 lines 459 to 461) and once from
the rate-limited branch (lines 465 to 468).  Both spawns carry the
same timestamp, 1300 ms, so they are 0 ms apart, not more than
1500 ms: the unconditional level-3 call defeats the rate limiter kept
in `window.lastGlobalPulse`, whose only purpose is the 1.5 s minimum
separation the claim states. -/
theorem c7_double_global_pulse :
    ((runEngine initState c7Events).2.getLastD []).count Effect.globalPulse = 2
    ∧ (runEngine initState c7Events).1.defensePressure = 13
    ∧ (runEngine initState c7Events).1.escalationLevel = 3 := by
  refine ⟨by decide, by decide, by decide⟩

theorem am_originIntensity (s : AMState) (now : Nat) (f t : GeoPoint) (sev : String) :
    (amDrawAttackBeam s now f t sev).1.originIntensity
      = updFn s.originIntensity f (s.originIntensity f + 1) :=
  rfl

theorem am_effects (s : AMState) (now : Nat) (f t : GeoPoint) (sev : String) :
    (amDrawAttackBeam s now f t sev).2
      = (if s.shieldDomeReady then []
          else match s.shieldDomeLayer with
            | some _ => []
            | none => [AMEffect.domeCreated t])
        ++ (if (if s.shieldDomeReady then s.shieldDomeLayer
              else createShieldDome s.shieldDomeLayer t).isSome
            then [AMEffect.intensifyDome sev] else [])
        ++ [AMEffect.originPulse f (min (s.originIntensity f + 1) 8),
            AMEffect.countryAura f]
        ++ (if sev = "critical" && s.soundEnabled
              && 800 < now - (s.lastSoundTime.getD 0)
            then [AMEffect.criticalSoundFx] else [])
        ++ [AMEffect.glowLine f t, AMEffect.gradientSegments f t]
        ++ (if sev = "critical" then
              [AMEffect.pulseBeamStart f t,
               AMEffect.impactFlash f ("#ff0033"),
               AMEffect.scheduledOriginPulse 0 f,
               AMEffect.scheduledOriginPulse 150 f]
            else [])
        ++ [AMEffect.packetStart f t]
        ++ (if sev = "critical" then [AMEffect.shieldImpact t] else [])
        ++ [AMEffect.beamTrailStart f t] :=
  rfl

/-- C8 counterexample: in the attackMap.js draft the claim's cited
critical block schedules two extra delayed origin pulses, so a single
critical event raises the origin counter from 0 to 3, not to 1. -/
theorem c8_counterexample :
    amInitState.originIntensity p55 = 0
    ∧ amCriticalCall.1.originIntensity p55 = 1
    ∧ amAfterCritical.originIntensity p55 = 3 := by
  refine ⟨rfl, by decide, by decide⟩

/-- C8 (amended).  In the canonical engine every accepted event
increments the origin counter of its origin key by exactly one
regardless of severity, leaves other keys untouched, and renders with
intensity min(counter, 8); the counter is never decremented by any
call.  In the superseded attackMap.js draft the same holds for
non-critical events, but a critical event additionally schedules two
delayed origin pulses (0 ms and 150 ms), so once they fire the counter
has grown by three. -/
theorem c8_origin_intensity :
    (∀ (s : EngineState) (now : Nat) (f t : GeoPoint) (sev : String),
      accepts s now →
        (drawAttackBeam s now f t sev).1.originIntensity f = s.originIntensity f + 1
        ∧ (∀ g, g ≠ f → (drawAttackBeam s now f t sev).1.originIntensity g
            = s.originIntensity g)
        ∧ Effect.originPulse f (min (s.originIntensity f + 1) 8)
            ∈ (drawAttackBeam s now f t sev).2)
    ∧ (∀ (s : EngineState) (now : Nat) (f t : GeoPoint) (sev : String) (g : GeoPoint),
        s.originIntensity g ≤ (drawAttackBeam s now f t sev).1.originIntensity g)
    ∧ (∀ (m : GeoPoint → Nat) (loc : GeoPoint),
        (createOriginPulse m loc).2 = min ((createOriginPulse m loc).1 loc) 8)
    ∧ (∀ (s : AMState) (now : Nat) (f t : GeoPoint) (sev : String),
        sev ≠ "critical" →
          (amDrawAttackBeam s now f t sev).1.originIntensity f
              = s.originIntensity f + 1
          ∧ (∀ dm g, AMEffect.scheduledOriginPulse dm g
              ∉ (amDrawAttackBeam s now f t sev).2))
    ∧ (∀ (s : AMState) (now : Nat) (f t : GeoPoint),
        (amDrawAttackBeam s now f t ("critical")).1.originIntensity f
            = s.originIntensity f + 1
        ∧ (amDrawAttackBeam s now f t ("critical")).2.countP isScheduledPulse = 2
        ∧ (amFireScheduledPulses (amDrawAttackBeam s now f t ("critical")).1
            (amDrawAttackBeam s now f t ("critical")).2).originIntensity f
            = s.originIntensity f + 3) := by
  refine ⟨?_, ?_, ?_, ?_, ?_⟩
  · intro s now f t sev hacc
    rw [drawAttackBeam_of_accepted _ _ _ _ _ hacc]
    refine ⟨by rw [accepted_originIntensity, updFn_same], ?_, ?_⟩
    · intro g hg
      rw [accepted_originIntensity, updFn_other _ _ _ _ hg]
    · rw [accepted_effects]
      simp only [List.mem_append, List.mem_cons]
      tauto
  · intro s now f t sev g
    by_cases hacc : now - s.lastDrawTime < 60
    · rw [drawAttackBeam_of_rejected _ _ _ _ _ hacc]
    · rw [drawAttackBeam_of_accepted _ _ _ _ _ hacc, accepted_originIntensity]
      unfold updFn
      split_ifs with h
      · subst h
        omega
      · exact Nat.le_refl _
  · intro m loc
    show min (m loc + 1) 8 = min (updFn m loc (m loc + 1) loc) 8
    rw [updFn_same]
  · intro s now f t sev hc
    constructor
    · rw [am_originIntensity, updFn_same]
    · intro dm g hmem
      rw [am_effects] at hmem
      simp only [if_neg hc] at hmem
      cases hL : s.shieldDomeLayer <;> rw [hL] at hmem <;>
        split_ifs at hmem <;> simp at hmem
  · intro s now f t
    refine ⟨by rw [am_originIntensity, updFn_same], ?_, ?_⟩
    · rw [am_effects]
      simp only [List.countP_append, if_pos rfl]
      cases hL : s.shieldDomeLayer <;> split_ifs <;>
        simp [List.countP_cons, List.countP_nil, isScheduledPulse]
    · rw [am_effects]
      simp only [if_pos rfl]
      cases hL : s.shieldDomeLayer <;> split_ifs <;>
        simp [amFireScheduledPulses, amCreateOriginPulse, updFn,
          am_originIntensity]

/-- C8 witness: one accepted medium event on the fresh canonical
engine raises the (5,5) origin counter from 0 to 1. -/
theorem c8_origin_intensity_witness :
    (drawAttackBeam initState 100 p55 p2020 ("medium")).1.originIntensity p55
      = initState.originIntensity p55 + 1 :=
  (c8_origin_intensity.1 initState 100 p55 p2020 ("medium") (by decide)).1

theorem animRun_zero {σ : Type} (tick : σ → Option σ) (st : σ) :
    animRun tick 0 st = some st :=
  rfl

theorem animRun_succ {σ : Type} (tick : σ → Option σ) (n : Nat) (st : σ) :
    animRun tick (n + 1) st = (tick st).bind (animRun tick n) :=
  rfl

theorem fadeTick_eq (dr : Rat) (st : FadeState) :
    fadeTick dr st
      = if 0 < st.opacity - (0.05 : Rat)
        then some { radius := st.radius + dr, opacity := st.opacity - 0.05 }
        else none :=
  rfl

theorem fade_opacity (dr : Rat) :
    ∀ (n : Nat) (st st2 : FadeState),
      animRun (fadeTick dr) n st = some st2 →
        st2.opacity = st.opacity - n * (0.05 : Rat) := by
  intro n
  induction n with
  | zero =>
      intro st st2 h
      have h2 : st = st2 := Option.some.inj h
      rw [← h2]
      push_cast
      ring
  | succ k ih =>
      intro st st2 h
      rw [animRun_succ, fadeTick_eq] at h
      by_cases hpos : 0 < st.opacity - (0.05 : Rat)
      · rw [if_pos hpos, Option.some_bind] at h
        have h3 := ih _ _ h
        rw [h3]
        show st.opacity - (0.05 : Rat) - k * 0.05
          = st.opacity - ((k + 1 : Nat) : Rat) * 0.05
        push_cast
        ring
      · rw [if_neg hpos, Option.none_bind] at h
        exact Option.noConfusion h

theorem fade_pos (dr : Rat) :
    ∀ (n : Nat) (st st2 : FadeState),
      animRun (fadeTick dr) (n + 1) st = some st2 → 0 < st2.opacity := by
  intro n
  induction n with
  | zero =>
      intro st st2 h
      rw [animRun_succ, fadeTick_eq] at h
      by_cases hpos : 0 < st.opacity - (0.05 : Rat)
      · rw [if_pos hpos, Option.some_bind, animRun_zero] at h
        have h2 := Option.some.inj h
        rw [← h2]
        exact hpos
      · rw [if_neg hpos, Option.none_bind] at h
        exact Option.noConfusion h
  | succ k ih =>
      intro st st2 h
      rw [animRun_succ, fadeTick_eq] at h
      by_cases hpos : 0 < st.opacity - (0.05 : Rat)
      · rw [if_pos hpos, Option.some_bind] at h
        exact ih _ _ h
      · rw [if_neg hpos, Option.none_bind] at h
        exact Option.noConfusion h

theorem fadeTick_terminates (dr : Rat) (st : FadeState) :
    AnimTerminates (fadeTick dr) st := by
  obtain ⟨m, hm⟩ := exists_nat_ge (st.opacity * 20)
  refine ⟨m + 1, ?_⟩
  cases hrun : animRun (fadeTick dr) (m + 1) st with
  | none => rfl
  | some st2 =>
      have h1 := fade_opacity dr (m + 1) st st2 hrun
      have h2 := fade_pos dr m st st2 hrun
      rw [h1] at h2
      have h4 : (0.05 : Rat) = 1 / 20 := by norm_num
      rw [h4] at h2
      push_cast at h2
      linarith

theorem interceptBeamTick_eq (o : Rat) :
    interceptBeamTick o
      = if 0 < o - (0.05 : Rat) then some (o - 0.05) else none :=
  rfl

theorem interceptBeam_opacity :
    ∀ (n : Nat) (o o2 : Rat),
      animRun interceptBeamTick n o = some o2 → o2 = o - n * (0.05 : Rat) := by
  intro n
  induction n with
  | zero =>
      intro o o2 h
      have h2 : o = o2 := Option.some.inj h
      rw [← h2]
      push_cast
      ring
  | succ k ih =>
      intro o o2 h
      rw [animRun_succ, interceptBeamTick_eq] at h
      by_cases hpos : 0 < o - (0.05 : Rat)
      · rw [if_pos hpos, Option.some_bind] at h
        have h3 := ih _ _ h
        rw [h3]
        push_cast
        ring
      · rw [if_neg hpos, Option.none_bind] at h
        exact Option.noConfusion h

theorem interceptBeam_pos :
    ∀ (n : Nat) (o o2 : Rat),
      animRun interceptBeamTick (n + 1) o = some o2 → 0 < o2 := by
  intro n
  induction n with
  | zero =>
      intro o o2 h
      rw [animRun_succ, interceptBeamTick_eq] at h
      by_cases hpos : 0 < o - (0.05 : Rat)
      · rw [if_pos hpos, Option.some_bind, animRun_zero] at h
        have h2 := Option.some.inj h
        rw [← h2]
        exact hpos
      · rw [if_neg hpos, Option.none_bind] at h
        exact Option.noConfusion h
  | succ k ih =>
      intro o o2 h
      rw [animRun_succ, interceptBeamTick_eq] at h
      by_cases hpos : 0 < o - (0.05 : Rat)
      · rw [if_pos hpos, Option.some_bind] at h
        exact ih _ _ h
      · rw [if_neg hpos, Option.none_bind] at h
        exact Option.noConfusion h

theorem interceptBeam_terminates (o : Rat) :
    AnimTerminates interceptBeamTick o := by
  obtain ⟨m, hm⟩ := exists_nat_ge (o * 20)
  refine ⟨m + 1, ?_⟩
  cases hrun : animRun interceptBeamTick (m + 1) o with
  | none => rfl
  | some o2 =>
      have h1 := interceptBeam_opacity (m + 1) o o2 hrun
      have h2 := interceptBeam_pos m o o2 hrun
      rw [h1] at h2
      have h4 : (0.05 : Rat) = 1 / 20 := by norm_num
      rw [h4] at h2
      push_cast at h2
      linarith

theorem packetTick_eq (p : Rat) :
    packetTick p
      = if p + (0.02 : Rat) < 1 then some (p + 0.02) else none :=
  rfl

theorem packet_progress :
    ∀ (n : Nat) (p p2 : Rat),
      animRun packetTick n p = some p2 → p2 = p + n * (0.02 : Rat) := by
  intro n
  induction n with
  | zero =>
      intro p p2 h
      have h2 : p = p2 := Option.some.inj h
      rw [← h2]
      push_cast
      ring
  | succ k ih =>
      intro p p2 h
      rw [animRun_succ, packetTick_eq] at h
      by_cases hlt : p + (0.02 : Rat) < 1
      · rw [if_pos hlt, Option.some_bind] at h
        have h3 := ih _ _ h
        rw [h3]
        push_cast
        ring
      · rw [if_neg hlt, Option.none_bind] at h
        exact Option.noConfusion h

theorem packet_lt_one :
    ∀ (n : Nat) (p p2 : Rat),
      animRun packetTick (n + 1) p = some p2 → p2 < 1 := by
  intro n
  induction n with
  | zero =>
      intro p p2 h
      rw [animRun_succ, packetTick_eq] at h
      by_cases hlt : p + (0.02 : Rat) < 1
      · rw [if_pos hlt, Option.some_bind, animRun_zero] at h
        have h2 := Option.some.inj h
        rw [← h2]
        exact hlt
      · rw [if_neg hlt, Option.none_bind] at h
        exact Option.noConfusion h
  | succ k ih =>
      intro p p2 h
      rw [animRun_succ, packetTick_eq] at h
      by_cases hlt : p + (0.02 : Rat) < 1
      · rw [if_pos hlt, Option.some_bind] at h
        exact ih _ _ h
      · rw [if_neg hlt, Option.none_bind] at h
        exact Option.noConfusion h

theorem packet_terminates (p : Rat) : AnimTerminates packetTick p := by
  obtain ⟨m, hm⟩ := exists_nat_ge ((1 - p) * 50)
  refine ⟨m + 1, ?_⟩
  cases hrun : animRun packetTick (m + 1) p with
  | none => rfl
  | some p2 =>
      have h1 := packet_progress (m + 1) p p2 hrun
      have h2 := packet_lt_one m p p2 hrun
      rw [h1] at h2
      have h4 : (0.02 : Rat) = 1 / 50 := by norm_num
      rw [h4] at h2
      push_cast at h2
      linarith

theorem animRun_always_some {σ : Type} (tick : σ → Option σ)
    (h : ∀ st, (tick st).isSome = true) :
    ∀ (n : Nat) (st : σ), animRun tick n st ≠ none := by
  intro n
  induction n with
  | zero =>
      intro st hcon
      exact Option.noConfusion hcon
  | succ k ih =>
      intro st hcon
      obtain ⟨st2, h2⟩ := Option.isSome_iff_exists.mp (h st)
      rw [animRun_succ, h2, Option.some_bind] at hcon
      exact ih st2 hcon

/-- C9 counterexample: `pulseBeam`, started by the critical path of
`drawAttackBeam`, ticks forever: its oscillation loop requests the
next frame unconditionally, never reaches a completion condition and
never releases its line handle. -/
theorem c9_counterexample :
    AMEffect.pulseBeamStart p55 p2020
        ∈ (amDrawAttackBeam amInitState 1000 p55 p2020 ("critical")).2
    ∧ ¬ AnimTerminates pulseBeamTick pulseBeamInit := by
  constructor
  · decide
  · rintro ⟨n, hn⟩
    exact animRun_always_some pulseBeamTick (fun st => rfl) n pulseBeamInit hn

/-- C9 (amended).  The decay- and progress-driven Effects (impact
flash, shield impact, shield ripple for every severity, orbital pulse,
intercept beam, packet) all reach their completion bound after
finitely many ticks and are removed; but the critical-beam pulse
(`pulseBeam`) and the beam-trail particle stream (`createBeamTrail`)
tick forever from any starting state: their loops have no completion
condition, so those two Effects are not self-terminating. -/
theorem c9_effect_termination :
    AnimTerminates impactFlashTick impactFlashInit
    ∧ AnimTerminates shieldImpactTick shieldImpactInit
    ∧ (∀ sev : String, AnimTerminates (shieldRippleTick sev) shieldRippleInit)
    ∧ AnimTerminates orbitalPulseTick orbitalPulseInit
    ∧ AnimTerminates interceptBeamTick interceptBeamInit
    ∧ AnimTerminates packetTick 0
    ∧ ¬ AnimTerminates pulseBeamTick pulseBeamInit
    ∧ (∀ p0 : Rat, ¬ AnimTerminates beamTrailTick p0) := by
  refine ⟨fadeTick_terminates 16000 impactFlashInit,
    fadeTick_terminates 18000 shieldImpactInit,
    fun sev => fadeTick_terminates (rippleStep sev) shieldRippleInit,
    fadeTick_terminates 20000 orbitalPulseInit,
    interceptBeam_terminates interceptBeamInit,
    packet_terminates 0, ?_, ?_⟩
  · rintro ⟨n, hn⟩
    exact animRun_always_some pulseBeamTick (fun st => rfl) n pulseBeamInit hn
  · intro p0
    rintro ⟨n, hn⟩
    exact animRun_always_some beamTrailTick (fun st => rfl) n p0 hn

/-- C9 witness: the impact flash self-terminates from its initial
state. -/
theorem c9_effect_termination_witness :
    AnimTerminates impactFlashTick impactFlashInit :=
  c9_effect_termination.1
